import Mathlib

/-!
Verification of the DRM/EGL presentation engine of
`src/video/out/opengl/context_drm_egl.c` (mpv).

The development is a shallow embedding of the engine's state (`struct priv`)
and of its operations: the GPU-fence FIFO (`wait_fence` / `new_fence`), the
buffer-object swapchain (`enqueue_bo` / `dequeue_bo` / `swapchain_step`), the
flip scheduler (`queue_flip` / `wait_on_flip`), the CRTC session manager
(`crtc_setup` / `crtc_release`), format probing (`probe_gbm_format`), and the
steady-state swap cycle (`drm_egl_swap_buffers`).

External collaborators (the kernel display device, the GBM buffer producer and
the GL fence primitives) are modelled by explicit oracle parameters: every
fallible external call takes its outcome from an oracle record, so a single
model run corresponds to one concrete execution of the C code under one
schedule of external outcomes.  Ghost fields (`released`, `submitted`,
`commits`, `pflip_closure`) record externally observable events — buffers
handed back to the producer, buffers submitted, atomic commits issued, and the
heap closure handed to the kernel — without influencing control flow.

Unbounded C loops (`wait_on_flip`'s poll loop, the drain loop in
`drm_egl_swap_buffers`) are modelled with explicit fuel; the Boolean component
of their result is `true` exactly when the C function has returned, so partial
executions (fuel exhausted mid-loop) are observable states of the engine.
-/

set_option autoImplicit false
set_option linter.unreachableTactic false
set_option linter.unusedTactic false

namespace DrmEgl

/-- The `struct drm_vsync_tuple` stamp carried by each queued frame
(`ust`/`msc`/`sbc` counters; `sbc` is incremented on each `enqueue_bo`). -/
structure DrmVsyncTuple where
  ust : Nat
  msc : Nat
  sbc : Nat
deriving DecidableEq, Repr

/-- One entry of `gbm.bo_queue` (`struct gbm_frame`): a buffer-object handle
and the vsync stamp taken at enqueue time.  `bo = none` models a NULL buffer
reference (the "hole in swapchain" case of `drm_egl_swap_buffers`). -/
structure GbmFrame where
  bo : Option Nat
  vsync : DrmVsyncTuple
deriving DecidableEq, Repr

/-- The `struct framebuffer` record cached on a buffer object by
`update_framebuffer_from_bo` (`id = 0` models a failed registration, as the
record is `talloc_zero`ed and `fb->id` is only written on success). -/
structure Framebuffer where
  fd : Nat
  width : Nat
  height : Nat
  id : Nat
deriving DecidableEq, Repr

/-- The `struct vo_vsync_info` fields this module mutates. -/
structure VoVsyncInfo where
  vsync_duration : Int
  skipped_vsyncs : Int
  last_queue_display_time : Int
deriving DecidableEq, Repr

/-- DRM object property names used by this module's atomic requests. -/
inductive DrmProp where
  | CRTC_ID | MODE_ID | ACTIVE | VRR_ENABLED | FB_ID | ZPOS
  | SRC_X | SRC_Y | SRC_W | SRC_H | CRTC_X | CRTC_Y | CRTC_W | CRTC_H
deriving DecidableEq, Repr

/-- One property assignment accumulated in an atomic request
(`drm_object_set_property`). -/
structure PropAssign where
  obj : Nat
  prop : DrmProp
  value : Nat
deriving DecidableEq, Repr

/-- An atomic transaction: the ordered property assignments it carries.
A fresh request from `drmModeAtomicAlloc` is `[]`; a NULL request pointer is
`none` at its use sites (`Option Txn`). -/
abbrev Txn := List PropAssign

/-- Ghost record of one `drmModeAtomicCommit` call: the request contents, the
flags used (`pageflipFlags` = NONBLOCK|PAGE_FLIP_EVENT, `allowModeset` =
ALLOW_MODESET), whether `p->waiting_for_flip` was set at the moment the commit
was issued, and the commit's return value. -/
structure CommitRec where
  txn : Txn
  pageflipFlags : Bool
  allowModeset : Bool
  pendingAtIssue : Bool
  ret : Int
deriving DecidableEq, Repr

/-- The KMS identifiers held by `p->kms` and its atomic context: the device
fd, the CRTC id used for `CRTC_ID` values, the mode blob, the mode's display
size, and the DRM object ids of the connector, CRTC and draw plane. -/
structure Kms where
  fd : Nat
  crtc_id : Nat
  connector_id : Nat
  mode_blob_id : Nat
  hdisplay : Nat
  vdisplay : Nat
  connObj : Nat
  crtcObj : Nat
  planeObj : Nat
deriving DecidableEq, Repr

/-- The engine state: the fields of `struct priv` (and of the structures it
owns) that the presentation engine reads or writes, plus ghost fields.

Ghost fields: `pflip_closure` is the page-flip callback closure currently
handed to the kernel (its `frame_vsync` payload); `released` lists the buffer
objects returned to the GBM surface by `gbm_surface_release_buffer`, in
order; `submitted` lists the buffer objects passed to `enqueue_bo`, in order;
`commits` logs every `drmModeAtomicCommit` issued. -/
structure Priv where
  kms : Kms
  gbm_format : Nat
  draw_w : Nat
  draw_h : Nat
  bo_queue : List GbmFrame
  vsync_fences : List Nat
  fb : Option Framebuffer
  fb_cache : List (Nat × Framebuffer)
  active : Bool
  waiting_for_flip : Bool
  still : Bool
  paused : Bool
  vsync : DrmVsyncTuple
  vsync_info : VoVsyncInfo
  request : Option Txn
  old_state_saved : Bool
  pflip_closure : Option DrmVsyncTuple
  released : List Nat
  submitted : List Nat
  commits : List CommitRec
deriving DecidableEq, Repr

/-! ### Fence synchronizer (`wait_fence`, `new_fence`) -/

/-- The loop of `wait_fence`: while the fence FIFO is nonempty and its length
is at least `numBos`, wait on the oldest fence (`ClientWaitSync`, external),
delete it and remove it from the FIFO. -/
def wait_fence_go : List Nat → Nat → List Nat
  | [], _ => []
  | f :: fs, numBos =>
    if (f :: fs).length ≥ numBos then wait_fence_go fs numBos else f :: fs

/-- `wait_fence`: drain the vsync-fence FIFO down below the buffer-queue
length (source lines 576-585). -/
def wait_fence (s : Priv) : Priv :=
  { s with vsync_fences := wait_fence_go s.vsync_fences s.bo_queue.length }

/-- `new_fence`: if `FenceSync` is available and fence creation succeeds
(both folded into the oracle `fenceOk`), append the new fence to the FIFO. -/
def new_fence (fenceOk : Bool) (fence : Nat) (s : Priv) : Priv :=
  if fenceOk then { s with vsync_fences := s.vsync_fences ++ [fence] } else s

/-! ### Buffer queue (`enqueue_bo`, `dequeue_bo`, `swapchain_step`) -/

/-- `enqueue_bo`: increment `p->vsync.sbc`, then append a frame holding the
buffer and the updated vsync stamp to the tail of `gbm.bo_queue`.  The ghost
`submitted` list records the submission order. -/
def enqueue_bo (bo : Nat) (s : Priv) : Priv :=
  let vs := { s.vsync with sbc := s.vsync.sbc + 1 }
  { s with vsync := vs,
           bo_queue := s.bo_queue ++ [{ bo := some bo, vsync := vs }],
           submitted := s.submitted ++ [bo] }

/-- `dequeue_bo`: free the head frame and remove it from the queue. -/
def dequeue_bo (s : Priv) : Priv :=
  { s with bo_queue := s.bo_queue.tail }

/-- `swapchain_step`: if the queue is nonempty, release the head frame's
buffer back to the GBM surface (when the buffer reference is present) and
dequeue the head.  An empty queue is a no-op (source lines 553-563). -/
def swapchain_step (s : Priv) : Priv :=
  match s.bo_queue with
  | [] => s
  | fr :: _ =>
    match fr.bo with
    | some b => dequeue_bo { s with released := s.released ++ [b] }
    | none => dequeue_bo s

/-! ### Flip completion callback and `wait_on_flip` -/

/-- Modelled from the spec: the page-flip completion callback `drm_pflip_cb`
lives in `video/out/drm_common.c`, which is not under `src/`; per the spec
(section 4.5) it is "invoked by kernel dispatch, on the calling thread":
given the flipped entry's vsync stamp (the closure payload) and the shared
vsync state, it computes the elapsed vsync count and timestamp delta, updates
the skipped-vsync count, stores the last-display timestamp, and clears the
pending flag.  `ust`/`msc` are the kernel-reported completion time and vsync
count.  Without a live closure the callback cannot fire, so the state is
returned unchanged. -/
def drm_pflip_cb (ust msc : Nat) (s : Priv) : Priv :=
  match s.pflip_closure with
  | none => s
  | some stamp =>
    let skipped : Int :=
      ((msc : Int) - (stamp.msc : Int)) - ((s.vsync.sbc : Int) - (stamp.sbc : Int))
    { s with waiting_for_flip := false,
             pflip_closure := none,
             vsync := { s.vsync with ust := ust, msc := msc },
             vsync_info := { s.vsync_info with
               skipped_vsyncs := s.vsync_info.skipped_vsyncs + skipped,
               last_queue_display_time := (ust : Int) } }

/-- Outcome of one iteration of `wait_on_flip`'s poll loop: the poll timed
out with no event, the device became readable but `drmHandleEvent` failed
(return value `e`), dispatch delivered the page-flip event (with kernel
timestamp `ust` and vsync count `msc`), or dispatch delivered some event
other than the awaited page flip. -/
inductive PollOutcome where
  | timeout
  | dispatchErr (e : Int)
  | flipEvent (ust msc : Nat)
  | otherEvent
deriving DecidableEq, Repr

/-- `wait_on_flip` (source lines 515-532): while `p->waiting_for_flip`, poll
the DRM fd and dispatch kernel events; a successful dispatch of the flip
event runs `drm_pflip_cb`, which clears the flag; a failed dispatch returns
early with the flag unchanged.  The outcome list plays the role of fuel: if
it is exhausted while the flag is still set, the C loop is still polling and
the function has not returned, which the `false` component records. -/
def wait_on_flip_go : List PollOutcome → Priv → Priv × Bool
  | [], s => (s, !s.waiting_for_flip)
  | o :: rest, s =>
    if s.waiting_for_flip then
      match o with
      | .timeout => wait_on_flip_go rest s
      | .dispatchErr _ => (s, true)
      | .flipEvent ust msc => wait_on_flip_go rest (drm_pflip_cb ust msc s)
      | .otherEvent => wait_on_flip_go rest s
    else (s, true)

/-! ### Framebuffer registry and `queue_flip` -/

/-- Lookup in the buffer-object → framebuffer cache
(`gbm_bo_get_user_data`). -/
def lookupFb : List (Nat × Framebuffer) → Nat → Option Framebuffer
  | [], _ => none
  | (b, f) :: rest, bo => if b = bo then some f else lookupFb rest bo

/-- Oracle for one `queue_flip` call: the dimensions and id the kernel would
assign to a newly registered framebuffer, the return value of the AddFB call
(the single-plane `drmModeAddFB2` and the modifier-aware
`drmModeAddFB2WithModifiers` paths both reduce to one registration outcome;
plane handles/strides/offsets are external), the return value of the
non-blocking atomic commit, and whether the replacement
`drmModeAtomicAlloc` succeeds. -/
structure QueueFlipEnv where
  fbWidth : Nat
  fbHeight : Nat
  newFbId : Nat
  addFbRet : Int
  commitRet : Int
  allocOk : Bool
deriving DecidableEq, Repr

/-- `update_framebuffer_from_bo` (source lines 288-339): if the buffer
already carries a cached framebuffer record, point `p->fb` at it; otherwise
register a new framebuffer (on failure the record keeps `id = 0`), cache it
on the buffer, and point `p->fb` at it. -/
def update_framebuffer_from_bo (e : QueueFlipEnv) (bo : Nat) (s : Priv) : Priv :=
  match lookupFb s.fb_cache bo with
  | some fb => { s with fb := some fb }
  | none =>
    let id := if e.addFbRet = 0 then e.newFbId else 0
    let fb : Framebuffer := ⟨s.kms.fd, e.fbWidth, e.fbHeight, id⟩
    { s with fb_cache := s.fb_cache ++ [(bo, fb)], fb := some fb }

/-- `queue_flip` (source lines 483-513): register the frame's framebuffer,
allocate the callback closure (binding the frame's vsync stamp), merge
`FB_ID`/`CRTC_ID`/`ZPOS` for the draw plane into the live request, submit it
non-blocking with the page-flip-event flag, free the closure if the commit
failed, set `p->waiting_for_flip` to the commit's success, and replace the
live request with a fresh allocation.  `bo`/`stamp` are the fields of the
`struct gbm_frame` argument (the caller guards that `frame->bo` is
non-NULL). -/
def queue_flip (e : QueueFlipEnv) (bo : Nat) (stamp : DrmVsyncTuple) (s : Priv) : Priv :=
  let s0 := update_framebuffer_from_bo e bo s
  let fbid := (s0.fb.map Framebuffer.id).getD 0
  let req := s0.request.map (fun t => t ++
    [⟨s0.kms.planeObj, DrmProp.FB_ID, fbid⟩,
     ⟨s0.kms.planeObj, DrmProp.CRTC_ID, s0.kms.crtcObj⟩,
     ⟨s0.kms.planeObj, DrmProp.ZPOS, 1⟩])
  let ret := e.commitRet
  { s0 with
    commits := s0.commits ++ [⟨req.getD [], true, false, s0.waiting_for_flip, ret⟩],
    pflip_closure := if ret = 0 then some stamp else s0.pflip_closure,
    waiting_for_flip := decide (ret = 0),
    request := if e.allocOk then some [] else none }

/-! ### CRTC session manager (`crtc_setup`, `crtc_release`) -/

/-- Oracle for one `crtc_setup` call: success of the old-state save, of the
local request allocation, of the mode-blob creation; return values of the
checked `drm_object_set_property` calls; the `VRR_CAPABLE` property value and
the user's VRR option; and the return value of the modeset commit. -/
structure CrtcSetupEnv where
  saveOk : Bool
  allocOk : Bool
  setConnCrtcRet : Int
  blobOk : Bool
  setModeRet : Int
  setActiveRet : Int
  vrrCapable : Nat
  vrrRequested : Int
  setVrrRet : Int
  commitRet : Int
deriving DecidableEq, Repr

/-- The property assignments `crtc_setup` accumulates in its local atomic
request when all checked setters succeed: connector→CRTC link, mode blob,
CRTC active flag, the best-effort `VRR_ENABLED` (only when requested or
capable, and only when the setter succeeds), and the full-source →
full-destination plane geometry. -/
def crtc_setup_txn (e : CrtcSetupEnv) (s : Priv) : Txn :=
  [⟨s.kms.connObj, DrmProp.CRTC_ID, s.kms.crtc_id⟩,
   ⟨s.kms.crtcObj, DrmProp.MODE_ID, s.kms.mode_blob_id⟩,
   ⟨s.kms.crtcObj, DrmProp.ACTIVE, 1⟩] ++
  (if (e.vrrRequested = 1 ∨ (e.vrrCapable ≠ 0 ∧ e.vrrRequested = -1)) ∧
      ¬ e.setVrrRet < 0
   then [⟨s.kms.crtcObj, DrmProp.VRR_ENABLED, 1⟩] else []) ++
  [⟨s.kms.planeObj, DrmProp.FB_ID, (s.fb.map Framebuffer.id).getD 0⟩,
   ⟨s.kms.planeObj, DrmProp.CRTC_ID, s.kms.crtc_id⟩,
   ⟨s.kms.planeObj, DrmProp.SRC_X, 0⟩,
   ⟨s.kms.planeObj, DrmProp.SRC_Y, 0⟩,
   ⟨s.kms.planeObj, DrmProp.SRC_W, s.draw_w <<< 16⟩,
   ⟨s.kms.planeObj, DrmProp.SRC_H, s.draw_h <<< 16⟩,
   ⟨s.kms.planeObj, DrmProp.CRTC_X, 0⟩,
   ⟨s.kms.planeObj, DrmProp.CRTC_Y, 0⟩,
   ⟨s.kms.planeObj, DrmProp.CRTC_W, s.kms.hdisplay⟩,
   ⟨s.kms.planeObj, DrmProp.CRTC_H, s.kms.vdisplay⟩]

/-- `crtc_setup` (source lines 341-416): if already active, return `true`
immediately.  Otherwise mark active, save the old atomic state (failure is
logged, non-fatal; the saved flag is set only on success), allocate a local
request, apply the checked property setters and the mode blob (each failure
aborts with `false`), then commit synchronously with ALLOW_MODESET and
return the commit's success.  Note the early failure paths leave
`p->active == true`. -/
def crtc_setup (e : CrtcSetupEnv) (s : Priv) : Priv × Bool :=
  if s.active then (s, true)
  else
    let s1 := { s with active := true,
                       old_state_saved := s.old_state_saved || e.saveOk }
    if !e.allocOk then (s1, false)
    else if e.setConnCrtcRet < 0 then (s1, false)
    else if !e.blobOk then (s1, false)
    else if e.setModeRet < 0 then (s1, false)
    else if e.setActiveRet < 0 then (s1, false)
    else
      let s2 := { s1 with commits := s1.commits ++
        [⟨crtc_setup_txn e s1, false, true, s1.waiting_for_flip, e.commitRet⟩] }
      (s2, decide (e.commitRet = 0))

/-- Oracle for one `crtc_release` call: success of the local request
allocation, the restore transaction built by `drm_atomic_restore_old_state`
(which lives in `drm_common.c`, outside `src/`; its contents are the saved
state, abstract here), and the restore commit's return value. -/
structure CrtcReleaseEnv where
  allocOk : Bool
  restoreTxn : Txn
  commitRet : Int
deriving DecidableEq, Repr

/-- `crtc_release` (source lines 418-454): if not active, return.  Mark
inactive; if no old state was saved, return.  Otherwise allocate a local
request, build the restore transaction into it and commit synchronously with
ALLOW_MODESET; all failures are logged only — teardown always completes. -/
def crtc_release (e : CrtcReleaseEnv) (s : Priv) : Priv :=
  if !s.active then s
  else
    let s1 := { s with active := false }
    if !s1.old_state_saved then s1
    else if !e.allocOk then s1
    else { s1 with commits := s1.commits ++
      [⟨e.restoreTxn, false, true, s1.waiting_for_flip, e.commitRet⟩] }

/-! ### Format probing (`probe_gbm_format`) -/

/-- The scan loop of `probe_gbm_format` over the draw plane's format list:
`have_argb` is set when a format equals the alpha format, else `have_xrgb`
when it equals the opaque format (the `else if` of the source). -/
def probe_scan (argb xrgb : Nat) : List Nat → Bool → Bool → Bool × Bool
  | [], ha, hx => (ha, hx)
  | f :: fs, ha, hx =>
    if f = argb then probe_scan argb xrgb fs true hx
    else if f = xrgb then probe_scan argb xrgb fs ha true
    else probe_scan argb xrgb fs ha hx

/-- `probe_gbm_format` (source lines 699-729): scan the draw plane's
supported formats; prefer the alpha format, fall back to the opaque format,
and fail (leaving `p->gbm_format` untouched) when neither is supported.
`formats` is the kernel-reported `drmplane->formats` array. -/
def probe_gbm_format (formats : List Nat) (argb_format xrgb_format : Nat)
    (s : Priv) : Priv × Bool :=
  let hv := probe_scan argb_format xrgb_format formats false false
  if hv.1 then ({ s with gbm_format := argb_format }, true)
  else if hv.2 then ({ s with gbm_format := xrgb_format }, true)
  else (s, false)

/-! ### Frame hooks and control (`drm_egl_start_frame`,
`drm_egl_submit_frame`, `drm_egl_control`) -/

/-- `drm_egl_start_frame` (source lines 587-598): ensure a live atomic
request exists. -/
def drm_egl_start_frame (s : Priv) : Priv :=
  if s.request = none then { s with request := some [] } else s

/-- `drm_egl_submit_frame` (source lines 600-608): record whether the
submitted frame is a still frame. -/
def drm_egl_submit_frame (stillFlag : Bool) (s : Priv) : Priv :=
  { s with still := stillFlag }

/-- The two `drm_egl_control` requests with engine-state effects. -/
inductive Voctrl where
  | pause
  | resume
deriving DecidableEq, Repr

/-- `drm_egl_control` (source lines 950-960): `VOCTRL_PAUSE` sets the paused
flag (forcing subsequent drain); `VOCTRL_RESUME` clears it and resets the
vsync accounting to an unknown baseline. -/
def drm_egl_control : Voctrl → Priv → Priv
  | .pause, s => { s with paused := true }
  | .resume, s =>
    { s with paused := false,
             vsync_info := { s.vsync_info with
               last_queue_display_time := -1, skipped_vsyncs := 0 },
             vsync := { s.vsync with ust := 0, msc := 0 } }

/-! ### The swap cycle (`drm_egl_swap_buffers`) -/

/-- Oracle for one iteration of the drain loop of `drm_egl_swap_buffers`:
the `gbm_surface_has_free_buffers` answer for this iteration's condition
check, the poll outcomes consumed by a `wait_on_flip` call made this
iteration, and the oracle for a `queue_flip` call made this iteration. -/
structure LoopIterEnv where
  freeBuf : Bool
  wofOutcomes : List PollOutcome
  qfEnv : QueueFlipEnv
deriving DecidableEq, Repr

/-- Default iteration oracle (all external calls succeed), used when a run's
explicit per-iteration oracles are exhausted. -/
def defaultIter : LoopIterEnv :=
  ⟨true, [.flipEvent 0 0], ⟨0, 0, 1, 0, 0, true⟩⟩

/-- The `if (p->waiting_for_flip) { wait_on_flip(ctx); swapchain_step(ctx); }`
prologue of a drain-loop iteration: when a flip is pending, wait for it and —
if the wait returned — retire the head.  The `false` component means
`wait_on_flip` was still polling when its modelled outcomes ran out, so the
rest of the iteration never executes. -/
def drain_wait (e : LoopIterEnv) (s : Priv) : Priv × Bool :=
  if s.waiting_for_flip then
    let w := wait_on_flip_go e.wofOutcomes s
    (if w.2 then swapchain_step w.1 else w.1, w.2)
  else (s, true)

/-- The drain loop of `drm_egl_swap_buffers` (source lines 631-645): while
draining, over depth, or out of free buffers — if a flip is pending, wait for
it and retire the head; stop at one queued entry; skip-and-retire on a hole
at the second-oldest entry; otherwise queue a flip for the second-oldest
entry.  `fuel` bounds the modelled iterations; the `false` component means
the C loop was still running when fuel ran out. -/
def swap_buffers_loop (drain : Bool) (depth : Nat) :
    Nat → List LoopIterEnv → Priv → Priv × Bool
  | 0, _, s => (s, false)
  | fuel + 1, envs, s =>
    let e := envs.headD defaultIter
    if drain || decide (s.bo_queue.length > depth) || !e.freeBuf then
      match drain_wait e s with
      | (s1, false) => (s1, false)
      | (s1, true) =>
        if s1.bo_queue.length ≤ 1 then (s1, true)
        else
          match s1.bo_queue with
          | _ :: fr :: _ =>
            match fr.bo with
            | none => swap_buffers_loop drain depth fuel envs.tail (swapchain_step s1)
            | some b =>
              swap_buffers_loop drain depth fuel envs.tail
                (queue_flip e.qfEnv b fr.vsync s1)
          | _ => (s1, true)
    else (s, true)

/-- Oracle for one `drm_egl_swap_buffers` call: the buffer returned by
`gbm_surface_lock_front_buffer` (`none` = lock failure), the fence-creation
outcome and handle for `new_fence`, the loop fuel, and the per-iteration
oracles of the drain loop. -/
structure SwapEnv where
  lockBo : Option Nat
  fenceOk : Bool
  fenceId : Nat
  fuel : Nat
  loopEnvs : List LoopIterEnv
deriving DecidableEq, Repr

/-- `drm_egl_swap_buffers` (source lines 610-646): compute the drain flag
(paused or still); return immediately when the session is inactive; drain due
fences; swap the EGL surface (external); lock the new front buffer (failure
returns); enqueue it and record a fence for it; then run the drain loop.
The `false` result component means the drain loop was still running when the
modelled fuel ran out. -/
def drm_egl_swap_buffers (env : SwapEnv) (depth : Nat) (s : Priv) : Priv × Bool :=
  let drain := s.paused || s.still
  if !s.active then (s, true)
  else
    let s1 := wait_fence s
    match env.lockBo with
    | none => (s1, true)
    | some bo =>
      let s2 := enqueue_bo bo s1
      let s3 := new_fence env.fenceOk env.fenceId s2
      swap_buffers_loop drain depth env.fuel env.loopEnvs s3

/-! ### Concrete states for witnesses and counterexamples -/

/-- Concrete KMS identifiers for concrete runs. -/
def kms0 : Kms := ⟨3, 40, 50, 60, 1920, 1080, 70, 71, 72⟩

/-- The zero-initialized `struct priv` of `drm_egl_init` (`talloc_zero`),
after the vsync-info baseline of lines 917-919 is written. -/
def priv0 : Priv :=
  { kms := kms0, gbm_format := 0, draw_w := 1920, draw_h := 1080,
    bo_queue := [], vsync_fences := [], fb := none, fb_cache := [],
    active := false, waiting_for_flip := false, still := false, paused := false,
    vsync := ⟨0, 0, 0⟩, vsync_info := ⟨0, -1, -1⟩, request := none,
    old_state_saved := false, pflip_closure := none, released := [],
    submitted := [], commits := [] }

/-- Oracle of the initial `crtc_setup` during `drm_egl_init`: everything
succeeds, VRR neither capable nor requested. -/
def initSetupEnv : CrtcSetupEnv := ⟨true, true, 0, true, 0, 0, 0, 0, 0, 0⟩

/-- Oracle of the initial `update_framebuffer_from_bo` during
`drm_egl_init`: registration succeeds with framebuffer id 100. -/
def initQfEnv : QueueFlipEnv := ⟨1920, 1080, 100, 0, 0, true⟩

/-- The engine state after the initialization tail of `drm_egl_init`
(source lines 861-874): the first front buffer (buffer object 0) is locked,
enqueued and registered, and the CRTC session is established. -/
def post_init : Priv :=
  (crtc_setup initSetupEnv
    (update_framebuffer_from_bo initQfEnv 0 (enqueue_bo 0 priv0))).1

/-! ### C10 — `swapchain_step` on an empty queue -/

/-- Claim C10: invoking `swapchain_step` on an empty buffer queue is a safe
no-op — it returns without accessing any queue entry and leaves the whole
state unchanged, so the queue length never underflows. -/
theorem claim_C10 (s : Priv) (h : s.bo_queue = []) : swapchain_step s = s := by
  unfold swapchain_step
  split
  · rfl
  · next fr l heq => rw [h] at heq; exact absurd heq (List.noConfusion)

/-- Witness for C10 at the concrete zero-initialized state. -/
theorem claim_C10_witness : swapchain_step priv0 = priv0 :=
  claim_C10 priv0 rfl

/-! ### C9 — `drm_egl_swap_buffers` with the session inactive -/

/-- Claim C9: if the session is inactive (`p->active` false, as after a VT
switch-away), `drm_egl_swap_buffers` returns immediately and leaves every
field of the engine state unchanged — no fence wait, no buffer lock, no
enqueue, no flip, and no change to the buffer queue, fence FIFO or vsync
counters. -/
theorem claim_C9 (env : SwapEnv) (depth : Nat) (s : Priv)
    (h : s.active = false) : drm_egl_swap_buffers env depth s = (s, true) := by
  simp [drm_egl_swap_buffers, h]

/-- Witness for C9: a concrete inactive state is returned untouched. -/
theorem claim_C9_witness :
    drm_egl_swap_buffers ⟨some 1, true, 101, 1, []⟩ 2 priv0 = (priv0, true) :=
  claim_C9 ⟨some 1, true, 101, 1, []⟩ 2 priv0 rfl

/-! ### C1 — the fence bound -/

/-- The `wait_fence` loop leaves at most `numBos` fences queued. -/
theorem wait_fence_go_length_le (fs : List Nat) (numBos : Nat) :
    (wait_fence_go fs numBos).length ≤ numBos := by
  induction fs with
  | nil => simp [wait_fence_go]
  | cons f fs ih =>
    unfold wait_fence_go
    split
    · exact ih
    · next h => simp at h ⊢; omega

/-- Claim C1, amended: the fence bound holds at the observation point
immediately after each fence drain — whenever `wait_fence` returns, the
GPU-fence FIFO is no longer than the buffer queue.  (As originally stated —
at every observation point across every operation — the bound is false:
head retirement shrinks the queue without consuming fences; see the
counterexample.) -/
theorem claim_C1 (s : Priv) :
    (wait_fence s).vsync_fences.length ≤ (wait_fence s).bo_queue.length :=
  wait_fence_go_length_le s.vsync_fences s.bo_queue.length

/-! ### C7 — strict FIFO retirement -/

/-- A submission-or-retirement event of the buffer queue: `enq b` is
`enqueue_bo` with buffer object `b` (submission), `step` is
`swapchain_step` (retirement of the head). -/
inductive QOp where
  | enq (bo : Nat)
  | step
deriving DecidableEq, Repr

/-- Run a sequence of buffer-queue operations. -/
def runQOps : List QOp → Priv → Priv
  | [], s => s
  | QOp.enq b :: rest, s => runQOps rest (enqueue_bo b s)
  | QOp.step :: rest, s => runQOps rest (swapchain_step s)

/-- The submission sequence B1..Bn carried by a list of queue operations. -/
def qopBos (ops : List QOp) : List Nat :=
  ops.filterMap fun op => match op with | QOp.enq b => some b | QOp.step => none

/-- FIFO invariant: the buffers already released to the producer, followed by
the buffer references still queued, is exactly the original submission
sequence. -/
theorem runQOps_fifo (ops : List QOp) (s : Priv) :
    (runQOps ops s).released
      ++ (runQOps ops s).bo_queue.filterMap GbmFrame.bo
    = s.released ++ s.bo_queue.filterMap GbmFrame.bo ++ qopBos ops := by
  induction ops generalizing s with
  | nil => simp [runQOps, qopBos]
  | cons op rest ih =>
    cases op with
    | enq b =>
      rw [runQOps, ih]
      simp [enqueue_bo, qopBos, List.filterMap_cons]
    | step =>
      rw [runQOps, ih]
      have hstep : (swapchain_step s).released
          ++ (swapchain_step s).bo_queue.filterMap GbmFrame.bo
          = s.released ++ s.bo_queue.filterMap GbmFrame.bo := by
        unfold swapchain_step
        split
        · rfl
        · next fr l heq =>
          cases hbo : fr.bo with
          | some b =>
            simp [dequeue_bo, heq, List.filterMap_cons, hbo]
          | none =>
            simp [dequeue_bo, heq, List.filterMap_cons, hbo]
      rw [hstep]
      simp [qopBos, List.filterMap_cons]

/-- Claim C7: for every submission sequence B1..Bn, enqueue appends at the
tail and retirement removes the head, so the buffers released back to the
producer, followed by the buffers still queued, are exactly B1..Bn in
submission order — retirement is strict FIFO with no re-ordering. -/
theorem claim_C7 (ops : List QOp) :
    (runQOps ops priv0).released
      ++ (runQOps ops priv0).bo_queue.filterMap GbmFrame.bo
    = qopBos ops := by
  have h := runQOps_fifo ops priv0
  simpa [priv0] using h

/-! ### C8 — format negotiation -/

/-- Closed form of the `probe_gbm_format` scan loop: the alpha flag is set
iff the alpha format occurs; the opaque flag is set iff the opaque format
occurs and differs from the alpha format (the `else if` shadows equal
formats). -/
theorem probe_scan_eq (argb xrgb : Nat) (l : List Nat) (ha hx : Bool) :
    probe_scan argb xrgb l ha hx =
      (ha || decide (argb ∈ l),
       hx || (decide (xrgb ∈ l) && decide (xrgb ≠ argb))) := by
  induction l generalizing ha hx with
  | nil => simp [probe_scan]
  | cons f fs ih =>
    unfold probe_scan
    by_cases h1 : f = argb
    · rw [if_pos h1, ih]
      by_cases h2 : xrgb = argb
      · simp [List.mem_cons, h1, h2]
      · simp [List.mem_cons, h1, h2]
    · rw [if_neg h1]
      by_cases h2 : f = xrgb
      · rw [if_pos h2, ih]
        have ha1 : argb ≠ f := fun h => h1 h.symm
        have ha2 : argb ≠ xrgb := fun h => h1 (h2.trans h.symm)
        have hx1 : xrgb ≠ argb := fun h => ha2 h.symm
        simp [List.mem_cons, h2, ha1, ha2, hx1]
      · rw [if_neg h2, ih]
        have ha1 : argb ≠ f := fun h => h1 h.symm
        have hx1 : xrgb ≠ f := fun h => h2 h.symm
        simp [List.mem_cons, ha1, hx1]

/-- Claim C8: for every plane format list, given an alpha format and an
opaque format, `probe_gbm_format` selects the alpha format and succeeds when
the plane supports it (whether or not it also supports the opaque one);
selects the opaque format and succeeds when only that one is supported; and
fails, leaving the selected format untouched, when the plane supports
neither. -/
theorem claim_C8 (formats : List Nat) (argb_format xrgb_format : Nat) (s : Priv) :
    probe_gbm_format formats argb_format xrgb_format s =
      if argb_format ∈ formats then ({ s with gbm_format := argb_format }, true)
      else if xrgb_format ∈ formats then ({ s with gbm_format := xrgb_format }, true)
      else (s, false) := by
  unfold probe_gbm_format
  rw [probe_scan_eq]
  by_cases h1 : argb_format ∈ formats
  · simp [h1]
  · by_cases h2 : xrgb_format ∈ formats
    · have hne : xrgb_format ≠ argb_format := fun h => h1 (h ▸ h2)
      simp [h1, h2, hne]
    · simp [h1, h2]

/-! ### C5 — session idempotence -/

/-- After any `crtc_setup` call the active flag is set (the failure paths of
the source leave `p->active == true` as well). -/
theorem crtc_setup_active (e : CrtcSetupEnv) (s : Priv) :
    ((crtc_setup e s).1).active = true := by
  cases hA : s.active with
  | true => simp [crtc_setup, hA]
  | false =>
    simp [crtc_setup, hA]
    repeat' split
    all_goals first | rfl | simp | omega

/-- A `crtc_setup` call on an already-active session is an immediate no-op
returning success. -/
theorem crtc_setup_of_active (e : CrtcSetupEnv) (s : Priv)
    (h : s.active = true) : crtc_setup e s = (s, true) := by
  simp [crtc_setup, h]

/-- A `crtc_setup` call issues at most one atomic commit. -/
theorem crtc_setup_commits (e : CrtcSetupEnv) (s : Priv) :
    ((crtc_setup e s).1).commits.length ≤ s.commits.length + 1 := by
  cases hA : s.active with
  | true => simp [crtc_setup, hA]
  | false =>
    simp [crtc_setup, hA]
    repeat' split
    all_goals first | rfl | simp | omega

/-- After any `crtc_release` call the active flag is clear. -/
theorem crtc_release_active (e : CrtcReleaseEnv) (s : Priv) :
    (crtc_release e s).active = false := by
  cases hA : s.active with
  | false => simp [crtc_release, hA]
  | true =>
    simp [crtc_release, hA]
    repeat' split
    all_goals first | rfl | simp | omega

/-- A `crtc_release` call on an inactive session is an immediate no-op. -/
theorem crtc_release_of_inactive (e : CrtcReleaseEnv) (s : Priv)
    (h : s.active = false) : crtc_release e s = s := by
  simp [crtc_release, h]

/-- A `crtc_release` call issues at most one atomic commit. -/
theorem crtc_release_commits (e : CrtcReleaseEnv) (s : Priv) :
    (crtc_release e s).commits.length ≤ s.commits.length + 1 := by
  cases hA : s.active with
  | false => simp [crtc_release, hA]
  | true =>
    simp [crtc_release, hA]
    repeat' split
    all_goals first | rfl | simp | omega

/-- Claim C5: session establishment and teardown are idempotent — a second
`crtc_setup` without an intervening teardown changes no state and reports
success (so the kernel modeset commit of the pair is issued at most once, by
the first call), and a second `crtc_release` without an intervening establish
changes no state (so the restore commit of the pair is issued at most once);
each single call commits at most once. -/
theorem claim_C5 (e1 e2 : CrtcSetupEnv) (er1 er2 : CrtcReleaseEnv) (s : Priv) :
    crtc_setup e2 (crtc_setup e1 s).1 = ((crtc_setup e1 s).1, true) ∧
    ((crtc_setup e1 s).1).commits.length ≤ s.commits.length + 1 ∧
    crtc_release er2 (crtc_release er1 s) = crtc_release er1 s ∧
    (crtc_release er1 s).commits.length ≤ s.commits.length + 1 :=
  ⟨crtc_setup_of_active e2 _ (crtc_setup_active e1 s),
   crtc_setup_commits e1 s,
   crtc_release_of_inactive er2 _ (crtc_release_active er1 s),
   crtc_release_commits er1 s⟩

/-! ### C6 — `queue_flip` submit-failure handling and transaction
replacement -/

/-- `update_framebuffer_from_bo` touches only the framebuffer fields. -/
theorem update_fb_frame_effect (e : QueueFlipEnv) (bo : Nat) (s : Priv) :
    (update_framebuffer_from_bo e bo s).pflip_closure = s.pflip_closure ∧
    (update_framebuffer_from_bo e bo s).waiting_for_flip = s.waiting_for_flip ∧
    (update_framebuffer_from_bo e bo s).request = s.request ∧
    (update_framebuffer_from_bo e bo s).commits = s.commits ∧
    (update_framebuffer_from_bo e bo s).bo_queue = s.bo_queue ∧
    (update_framebuffer_from_bo e bo s).vsync_fences = s.vsync_fences := by
  unfold update_framebuffer_from_bo
  split <;> simp

/-- Claim C6: for every invocation of `queue_flip` — if the non-blocking
atomic commit fails, the freshly allocated callback closure is discarded (the
closure handed to the kernel is unchanged) and the flip-pending flag is left
false; if it succeeds, the closure is handed over and the flip-pending flag
is set; and in both cases the live atomic transaction is replaced with a
fresh empty one before `queue_flip` returns (given that the replacement
allocation succeeds). -/
theorem claim_C6 (e : QueueFlipEnv) (bo : Nat) (stamp : DrmVsyncTuple)
    (s : Priv) (halloc : e.allocOk = true) :
    (e.commitRet ≠ 0 →
      (queue_flip e bo stamp s).pflip_closure = s.pflip_closure ∧
      (queue_flip e bo stamp s).waiting_for_flip = false) ∧
    (e.commitRet = 0 →
      (queue_flip e bo stamp s).pflip_closure = some stamp ∧
      (queue_flip e bo stamp s).waiting_for_flip = true) ∧
    (queue_flip e bo stamp s).request = some [] := by
  have hfx := update_fb_frame_effect e bo s
  unfold queue_flip
  by_cases hret : e.commitRet = 0 <;>
    simp [hret, halloc, hfx.1]

/-- Witness for C6 at a concrete failing commit. -/
theorem claim_C6_witness :
    (((2 : Int) ≠ 0 →
      (queue_flip ⟨64, 64, 7, 0, 2, true⟩ 5 ⟨1, 2, 3⟩ priv0).pflip_closure
          = priv0.pflip_closure ∧
      (queue_flip ⟨64, 64, 7, 0, 2, true⟩ 5 ⟨1, 2, 3⟩ priv0).waiting_for_flip
          = false) ∧
     ((2 : Int) = 0 →
      (queue_flip ⟨64, 64, 7, 0, 2, true⟩ 5 ⟨1, 2, 3⟩ priv0).pflip_closure
          = some ⟨1, 2, 3⟩ ∧
      (queue_flip ⟨64, 64, 7, 0, 2, true⟩ 5 ⟨1, 2, 3⟩ priv0).waiting_for_flip
          = true) ∧
     (queue_flip ⟨64, 64, 7, 0, 2, true⟩ 5 ⟨1, 2, 3⟩ priv0).request = some []) :=
  claim_C6 ⟨64, 64, 7, 0, 2, true⟩ 5 ⟨1, 2, 3⟩ priv0 rfl

/-! ### Frame lemmas for the drain-loop proofs -/

/-- The completion callback touches only the pending flag, the closure and
the vsync accounting. -/
theorem drm_pflip_cb_frame (ust msc : Nat) (s : Priv) :
    (drm_pflip_cb ust msc s).bo_queue = s.bo_queue ∧
    (drm_pflip_cb ust msc s).vsync_fences = s.vsync_fences ∧
    (drm_pflip_cb ust msc s).commits = s.commits := by
  unfold drm_pflip_cb
  split <;> simp

/-- `wait_on_flip` never touches the buffer queue, the fence FIFO or the
commit log. -/
theorem wait_on_flip_go_frame (outs : List PollOutcome) (s : Priv) :
    ((wait_on_flip_go outs s).1).bo_queue = s.bo_queue ∧
    ((wait_on_flip_go outs s).1).vsync_fences = s.vsync_fences ∧
    ((wait_on_flip_go outs s).1).commits = s.commits := by
  induction outs generalizing s with
  | nil => simp [wait_on_flip_go]
  | cons o rest ih =>
    unfold wait_on_flip_go
    by_cases hw : s.waiting_for_flip = true
    · rw [if_pos hw]
      cases o with
      | timeout => exact ih s
      | dispatchErr e => simp
      | flipEvent ust msc =>
        have hcb := drm_pflip_cb_frame ust msc s
        have hr := ih (drm_pflip_cb ust msc s)
        exact ⟨hr.1.trans hcb.1, hr.2.1.trans hcb.2.1, hr.2.2.trans hcb.2.2⟩
      | otherEvent => exact ih s
    · rw [if_neg hw]
      exact ⟨rfl, rfl, rfl⟩

/-- Outcome classifier: `false` exactly on a failed `drmHandleEvent`
dispatch. -/
def outcomeOkB : PollOutcome → Bool
  | PollOutcome.dispatchErr _ => false
  | _ => true

/-- All poll outcomes of one loop iteration are dispatch-error free. -/
def iterOkB (e : LoopIterEnv) : Bool := e.wofOutcomes.all outcomeOkB

/-- All poll outcomes of a whole drain-loop run are dispatch-error free. -/
def loopEnvsOkB (envs : List LoopIterEnv) : Bool := envs.all iterOkB

/-- When kernel event dispatch never fails, `wait_on_flip` returns only with
the pending flag clear. -/
theorem wait_on_flip_go_clears (outs : List PollOutcome) (s : Priv)
    (hok : outs.all outcomeOkB = true)
    (hret : (wait_on_flip_go outs s).2 = true) :
    ((wait_on_flip_go outs s).1).waiting_for_flip = false := by
  induction outs generalizing s with
  | nil =>
    simp [wait_on_flip_go] at hret ⊢
    exact hret
  | cons o rest ih =>
    simp only [List.all_cons, Bool.and_eq_true] at hok
    unfold wait_on_flip_go at hret ⊢
    by_cases hw : s.waiting_for_flip = true
    · rw [if_pos hw] at hret ⊢
      cases o with
      | timeout => exact ih s hok.2 hret
      | dispatchErr e => simp [outcomeOkB] at hok
      | flipEvent ust msc => exact ih _ hok.2 hret
      | otherEvent => exact ih s hok.2 hret
    · rw [if_neg hw] at hret ⊢
      exact Bool.not_eq_true _ ▸ hw

/-- `swapchain_step` touches only the queue and the released list. -/
theorem swapchain_step_frame (s : Priv) :
    (swapchain_step s).waiting_for_flip = s.waiting_for_flip ∧
    (swapchain_step s).commits = s.commits := by
  unfold swapchain_step
  split
  · exact ⟨rfl, rfl⟩
  · split <;> simp [dequeue_bo]

/-- The head oracle of a dispatch-error-free run is dispatch-error free
(the default iteration oracle is as well). -/
theorem loopEnvsOkB_head (envs : List LoopIterEnv)
    (h : loopEnvsOkB envs = true) : iterOkB (envs.headD defaultIter) = true := by
  cases envs with
  | nil => rfl
  | cons e es =>
    simp only [loopEnvsOkB, List.all_cons, Bool.and_eq_true] at h
    exact h.1

/-- The tail of a dispatch-error-free oracle list is dispatch-error free. -/
theorem loopEnvsOkB_tail (envs : List LoopIterEnv)
    (h : loopEnvsOkB envs = true) : loopEnvsOkB envs.tail = true := by
  cases envs with
  | nil => rfl
  | cons e es =>
    simp only [loopEnvsOkB, List.all_cons, Bool.and_eq_true] at h
    exact h.2

/-- Every page-flip commit in the log was issued with the pending flag
clear. -/
def commitsOKB (cs : List CommitRec) : Bool :=
  cs.all fun c => !c.pageflipFlags || !c.pendingAtIssue

/-- `queue_flip` preserves the page-flip discipline of the commit log when
invoked with the pending flag clear. -/
theorem queue_flip_commitsOK (e : QueueFlipEnv) (bo : Nat)
    (stamp : DrmVsyncTuple) (s : Priv) (hw : s.waiting_for_flip = false)
    (hc : commitsOKB s.commits = true) :
    commitsOKB ((queue_flip e bo stamp s).commits) = true := by
  have hfx := update_fb_frame_effect e bo s
  unfold queue_flip
  simp [commitsOKB, List.all_append, hfx.2.1, hfx.2.2.2.1, hw]
  simpa [commitsOKB] using hc

/-- When `drain_wait` lets the iteration proceed and no kernel event
dispatch failed, the pending flag is clear. -/
theorem drain_wait_clears (e : LoopIterEnv) (s s1 : Priv)
    (hok : iterOkB e = true) (h : drain_wait e s = (s1, true)) :
    s1.waiting_for_flip = false := by
  unfold drain_wait at h
  by_cases hw : s.waiting_for_flip = true
  · rw [if_pos hw] at h
    obtain ⟨h1, h2⟩ := Prod.mk.injEq .. ▸ h
    rw [if_pos h2] at h1
    have hwc := wait_on_flip_go_clears e.wofOutcomes s hok h2
    rw [← h1]
    exact (swapchain_step_frame _).1.trans hwc
  · rw [if_neg hw] at h
    obtain ⟨h1, _⟩ := Prod.mk.injEq .. ▸ h
    rw [← h1]
    simp at hw
    exact hw

/-- `drain_wait` never touches the commit log. -/
theorem drain_wait_commits (e : LoopIterEnv) (s s1 : Priv) (b : Bool)
    (h : drain_wait e s = (s1, b)) : s1.commits = s.commits := by
  unfold drain_wait at h
  by_cases hw : s.waiting_for_flip = true
  · rw [if_pos hw] at h
    obtain ⟨h1, _⟩ := Prod.mk.injEq .. ▸ h
    rw [← h1]
    by_cases h2 : (wait_on_flip_go e.wofOutcomes s).2 = true
    · rw [if_pos h2]
      exact (swapchain_step_frame _).2.trans (wait_on_flip_go_frame _ _).2.2
    · rw [if_neg h2]
      exact (wait_on_flip_go_frame _ _).2.2
  · rw [if_neg hw] at h
    obtain ⟨h1, _⟩ := Prod.mk.injEq .. ▸ h
    rw [← h1]

/-- Drain-loop partial correctness: in drain mode, when no kernel event
dispatch fails, the loop returns only with at most one queued entry and the
pending flag clear. -/
theorem swap_loop_drain (depth : Nat) (fuel : Nat) (envs : List LoopIterEnv)
    (s : Priv) (hok : loopEnvsOkB envs = true)
    (hret : (swap_buffers_loop true depth fuel envs s).2 = true) :
    (swap_buffers_loop true depth fuel envs s).1.bo_queue.length ≤ 1 ∧
    (swap_buffers_loop true depth fuel envs s).1.waiting_for_flip = false := by
  induction fuel generalizing envs s with
  | zero => simp [swap_buffers_loop] at hret
  | succ fuel ih =>
    have hok1 : iterOkB (envs.headD defaultIter) = true :=
      loopEnvsOkB_head envs hok
    have hok2 := loopEnvsOkB_tail envs hok
    have hcond : (true
        || decide (s.bo_queue.length > depth)
        || !(envs.headD defaultIter).freeBuf) = true := by simp
    simp only [swap_buffers_loop] at hret ⊢
    rw [if_pos hcond] at hret ⊢
    rcases hdw : drain_wait (envs.headD defaultIter) s with ⟨s1, b⟩
    rw [hdw] at hret
    cases b with
    | false => simp at hret
    | true =>
      dsimp only at hret ⊢
      have hwf : s1.waiting_for_flip = false :=
        drain_wait_clears (envs.headD defaultIter) s s1 hok1 hdw
      by_cases hlen : s1.bo_queue.length ≤ 1
      · rw [if_pos hlen] at hret ⊢
        exact ⟨hlen, hwf⟩
      · rw [if_neg hlen] at hret ⊢
        rcases hq : s1.bo_queue with _ | ⟨a, _ | ⟨fr, rest⟩⟩
        · rw [hq] at hlen; simp at hlen
        · rw [hq] at hlen; simp at hlen
        · rw [hq] at hret
          dsimp only at hret ⊢
          cases hbo : fr.bo with
          | none =>
            rw [hbo] at hret
            dsimp only at hret ⊢
            exact ih envs.tail _ hok2 hret
          | some b =>
            rw [hbo] at hret
            dsimp only at hret ⊢
            exact ih envs.tail _ hok2 hret

/-- Drain-loop flip discipline: when no kernel event dispatch fails, every
page-flip commit the loop issues is issued with the pending flag clear. -/
theorem swap_loop_commitsOK (drain : Bool) (depth fuel : Nat)
    (envs : List LoopIterEnv) (s : Priv)
    (hok : loopEnvsOkB envs = true) (hc : commitsOKB s.commits = true) :
    commitsOKB ((swap_buffers_loop drain depth fuel envs s).1).commits = true := by
  induction fuel generalizing envs s with
  | zero => simpa [swap_buffers_loop] using hc
  | succ fuel ih =>
    have hok1 : iterOkB (envs.headD defaultIter) = true :=
      loopEnvsOkB_head envs hok
    have hok2 := loopEnvsOkB_tail envs hok
    simp only [swap_buffers_loop]
    by_cases hcond : (drain
        || decide (s.bo_queue.length > depth)
        || !(envs.headD defaultIter).freeBuf) = true
    · rw [if_pos hcond]
      rcases hdw : drain_wait (envs.headD defaultIter) s with ⟨s1, b⟩
      have hcm : s1.commits = s.commits :=
        drain_wait_commits (envs.headD defaultIter) s s1 b hdw
      have hc1 : commitsOKB s1.commits = true := by rw [hcm]; exact hc
      cases b with
      | false => exact hc1
      | true =>
        dsimp only
        have hwf : s1.waiting_for_flip = false :=
          drain_wait_clears (envs.headD defaultIter) s s1 hok1 hdw
        by_cases hlen : s1.bo_queue.length ≤ 1
        · rw [if_pos hlen]
          exact hc1
        · rw [if_neg hlen]
          rcases hq : s1.bo_queue with _ | ⟨a, _ | ⟨fr, rest⟩⟩
          · rw [hq] at hlen; simp at hlen
          · rw [hq] at hlen; simp at hlen
          · dsimp only
            cases hbo : fr.bo with
            | none =>
              dsimp only
              have hsc : commitsOKB (swapchain_step s1).commits = true := by
                rw [(swapchain_step_frame s1).2]; exact hc1
              exact ih envs.tail _ hok2 hsc
            | some b =>
              dsimp only
              exact ih envs.tail _ hok2
                (queue_flip_commitsOK (envs.headD defaultIter).qfEnv b fr.vsync s1 hwf hc1)
    · rw [if_neg hcond]
      exact hc

/-- Claim C3, amended: whenever `drm_egl_swap_buffers` is invoked with drain
requested (paused or still frame) while the session is active, with the
front-buffer lock succeeding and kernel event dispatch succeeding whenever a
flip is awaited, it returns only in a state where the buffer-queue length is
at most 1 and the flip-pending flag is clear.  (As originally stated the
claim is false: with the session inactive the call returns immediately with
the queue and flag untouched; see the counterexample.) -/
theorem claim_C3 (env : SwapEnv) (depth : Nat) (s : Priv) (bo : Nat)
    (hdrain : (s.paused || s.still) = true)
    (hactive : s.active = true)
    (hlock : env.lockBo = some bo)
    (hok : loopEnvsOkB env.loopEnvs = true)
    (hret : (drm_egl_swap_buffers env depth s).2 = true) :
    (drm_egl_swap_buffers env depth s).1.bo_queue.length ≤ 1 ∧
    (drm_egl_swap_buffers env depth s).1.waiting_for_flip = false := by
  have hA : ¬ (!s.active) = true := by simp [hactive]
  simp only [drm_egl_swap_buffers] at hret ⊢
  rw [if_neg hA] at hret ⊢
  rw [hlock] at hret ⊢
  dsimp only at hret ⊢
  rw [hdrain] at hret ⊢
  exact swap_loop_drain depth env.fuel env.loopEnvs _ hok hret

/-- Claim C4, amended: provided every kernel event dispatch during the call
succeeds (`drmHandleEvent` never fails), `drm_egl_swap_buffers` never issues
a page-flip commit (non-blocking atomic commit with the page-flip-event
flag) while the flip-pending flag is set: the commit log keeps the
discipline that every page-flip commit was issued with the flag clear.  (As
originally stated the claim is false: when a dispatch fails, `wait_on_flip`
returns with the flag still set and the subsequent `queue_flip` issues a
page-flip commit with the flag set; see the counterexample.) -/
theorem claim_C4 (env : SwapEnv) (depth : Nat) (s : Priv)
    (hok : loopEnvsOkB env.loopEnvs = true)
    (hc : commitsOKB s.commits = true) :
    commitsOKB ((drm_egl_swap_buffers env depth s).1).commits = true := by
  simp only [drm_egl_swap_buffers]
  by_cases hA : (!s.active) = true
  · rw [if_pos hA]
    exact hc
  · rw [if_neg hA]
    cases hlk : env.lockBo with
    | none =>
      dsimp only
      exact hc
    | some bo =>
      dsimp only
      refine swap_loop_commitsOK _ depth env.fuel env.loopEnvs _ hok ?_
      have h1 : (new_fence env.fenceOk env.fenceId
          (enqueue_bo bo (wait_fence s))).commits = s.commits := by
        unfold new_fence
        split <;> rfl
      rw [h1]
      exact hc

/-- Claim C2, amended: in the drain loop, whenever the second-oldest queue
entry has an absent buffer reference (a hole), the iteration logs the hole,
retires the HEAD entry (not the hole: the hole stays queued and becomes the
new head, to be retired by a later step), attempts no flip in that
iteration, and continues with the loop.  (As originally stated — "that hole
entry is the one retired" — the claim is false; see the counterexample.) -/
theorem claim_C2 (drain : Bool) (depth fuel : Nat) (e : LoopIterEnv)
    (envs : List LoopIterEnv) (s : Priv) (a fr : GbmFrame)
    (rest : List GbmFrame)
    (hq : s.bo_queue = a :: fr :: rest)
    (hhole : fr.bo = none)
    (hw : s.waiting_for_flip = false)
    (hcond : (drain || decide (s.bo_queue.length > depth) || !e.freeBuf) = true) :
    swap_buffers_loop drain depth (fuel + 1) (e :: envs) s
      = swap_buffers_loop drain depth fuel envs (swapchain_step s) ∧
    (swapchain_step s).bo_queue = fr :: rest ∧
    (swapchain_step s).commits = s.commits := by
  have hdw : drain_wait e s = (s, true) := by
    unfold drain_wait
    rw [if_neg (by simp [hw])]
  have hsq : (swapchain_step s).bo_queue = fr :: rest := by
    unfold swapchain_step
    rw [hq]
    dsimp only
    cases a.bo <;> simp [dequeue_bo, hq]
  refine ⟨?_, hsq, (swapchain_step_frame s).2⟩
  simp only [swap_buffers_loop, List.headD_cons, List.tail_cons]
  rw [if_pos hcond]
  rw [hdw]
  try dsimp only
  rw [if_neg (by rw [hq]; simp)]
  rw [hq]
  try dsimp only
  rw [hhole]

/-! ### Concrete executions for the counterexamples and witnesses

A reachable steady-state trace from `post_init` with swapchain depth 2:
one swap of buffer 1, one swap of buffer 2 (which queues two flips and
retires buffer 0), then a drain.  All external calls succeed. -/

/-- Oracle of the first steady-state swap (locks buffer 1). -/
def swapEnvA : SwapEnv := ⟨some 1, true, 101, 1, []⟩

/-- Oracle of the second steady-state swap (locks buffer 2). -/
def swapEnvB : SwapEnv := ⟨some 2, true, 102, 5, []⟩

/-- Oracle of a drain swap (locks buffer 3), all dispatches succeeding. -/
def swapEnvC : SwapEnv := ⟨some 3, true, 103, 5, []⟩

/-- State after the first steady-state frame cycle
(start-frame / submit-frame / swap). -/
def run_s1 : Priv :=
  (drm_egl_swap_buffers swapEnvA 2
    (drm_egl_submit_frame false (drm_egl_start_frame post_init))).1

/-- State after the second steady-state frame cycle: two entries queued,
two fences pending, one flip in flight, buffer 0 already retired. -/
def run_s2 : Priv :=
  (drm_egl_swap_buffers swapEnvB 2
    (drm_egl_submit_frame false (drm_egl_start_frame run_s1))).1

/-- A drain cycle right after pausing: the run that refutes C1 as
stated. -/
def c1_run : Priv × Bool :=
  drm_egl_swap_buffers swapEnvC 2
    (drm_egl_submit_frame false
      (drm_egl_start_frame (drm_egl_control Voctrl.pause run_s2)))

/-- Counterexample to claim C1 as stated ("fence-FIFO length ≤ buffer-queue
length at every observation point"): in the reachable execution `c1_run` —
pause, then one drain swap — the call returns with one queued buffer but two
pending GPU fences, so the fence FIFO is strictly longer than the buffer
queue. -/
theorem claim_C1_counterexample :
    c1_run.2 = true ∧
    c1_run.1.bo_queue.length < c1_run.1.vsync_fences.length := by decide

/-- Oracle of a drain swap whose first `wait_on_flip` hits a failed
`drmHandleEvent` dispatch. -/
def swapEnvErr : SwapEnv :=
  ⟨some 3, true, 103, 5,
   [⟨true, [PollOutcome.dispatchErr 1], ⟨0, 0, 1, 0, 0, true⟩⟩]⟩

/-- The dispatch-failure drain run that refutes C4 as stated. -/
def c4_run : Priv × Bool :=
  drm_egl_swap_buffers swapEnvErr 2
    (drm_egl_submit_frame false
      (drm_egl_start_frame (drm_egl_control Voctrl.pause run_s2)))

/-- Counterexample to claim C4 as stated ("a page-flip commit is never
issued while the flip-pending flag is set"): in the reachable execution
`c4_run` — a flip is in flight, `drmHandleEvent` fails once inside
`wait_on_flip`, which returns with the flag still set, and the loop then
calls `queue_flip` — a page-flip commit is issued with `waiting_for_flip`
set. -/
theorem claim_C4_counterexample :
    c4_run.2 = true ∧
    (c4_run.1.commits.any fun c => c.pageflipFlags && c.pendingAtIssue)
      = true := by decide

/-- Oracle of the VT-release (`crtc_release`) in the C3 refutation. -/
def relEnvA : CrtcReleaseEnv := ⟨true, [], 0⟩

/-- Oracle of the attempted drain swap after the VT switch-away. -/
def swapEnvD : SwapEnv := ⟨some 4, true, 104, 5, []⟩

/-- State at the C3-refuting invocation: two entries queued and a flip in
flight, the session torn down by a VT switch-away, then paused. -/
def c3_pre : Priv := drm_egl_control Voctrl.pause (crtc_release relEnvA run_s2)

/-- The inactive-session drain call that refutes C3 as stated. -/
def c3_run : Priv × Bool := drm_egl_swap_buffers swapEnvD 2 c3_pre

/-- Counterexample to claim C3 as stated ("swap-buffers with drain requested
returns only with queue length ≤ 1 and the flip-pending flag clear"): in the
reachable execution `c3_run` — two buffers queued, a flip in flight, the
session released by a VT switch-away, playback paused — the call is invoked
with drain requested and returns immediately with two buffers still queued
and the flip-pending flag still set. -/
theorem claim_C3_counterexample :
    (c3_pre.paused || c3_pre.still) = true ∧
    c3_run.2 = true ∧
    ¬ c3_run.1.bo_queue.length ≤ 1 ∧
    c3_run.1.waiting_for_flip = true := by decide

/-- Witness state for the amended C3: active, paused, empty queue. -/
def c3wit : Priv := { priv0 with active := true, paused := true }

/-- Witness oracle for the amended C3. -/
def c3witEnv : SwapEnv := ⟨some 1, true, 101, 1, []⟩

/-- Witness for the amended C3 at a concrete drain invocation. -/
theorem claim_C3_witness :
    (drm_egl_swap_buffers c3witEnv 2 c3wit).1.bo_queue.length ≤ 1 ∧
    (drm_egl_swap_buffers c3witEnv 2 c3wit).1.waiting_for_flip = false :=
  claim_C3 c3witEnv 2 c3wit 1 rfl rfl rfl rfl (by decide)

/-- Witness for the amended C4 at a concrete invocation. -/
theorem claim_C4_witness :
    commitsOKB ((drm_egl_swap_buffers c3witEnv 2 c3wit).1).commits = true :=
  claim_C4 c3witEnv 2 c3wit rfl rfl

/-- A queue entry with an absent buffer reference (a hole). -/
def holeFrame : GbmFrame := ⟨none, ⟨0, 0, 2⟩⟩

/-- A drain-loop state whose second-oldest entry is a hole: head buffer 10,
then the hole, then buffer 30. -/
def holeState : Priv :=
  { priv0 with
    active := true
    paused := true
    request := some ([])
    bo_queue := [⟨some 10, ⟨0, 0, 1⟩⟩, holeFrame, ⟨some 30, ⟨0, 0, 3⟩⟩] }

/-- One iteration of the drain loop on the hole state. -/
def c2_run : Priv × Bool := swap_buffers_loop true 2 1 [defaultIter] holeState

/-- Counterexample to claim C2 as stated ("that hole entry is the one
retired"): running the drain-loop iteration on `holeState` — whose
second-oldest entry is the hole — retires the head entry instead, releasing
the head's buffer 10 to the producer, while the hole entry remains queued as
the new head; no commit is issued. -/
theorem claim_C2_counterexample :
    c2_run.1.bo_queue.map GbmFrame.bo = [none, some 30] ∧
    c2_run.1.released = [10] ∧
    c2_run.1.commits = holeState.commits := by decide

/-- Witness for the amended C2 at the concrete hole state. -/
theorem claim_C2_witness :
    swap_buffers_loop true 2 (0 + 1) (defaultIter :: []) holeState
        = swap_buffers_loop true 2 0 [] (swapchain_step holeState) ∧
      (swapchain_step holeState).bo_queue
        = holeFrame :: [⟨some 30, ⟨0, 0, 3⟩⟩] ∧
      (swapchain_step holeState).commits = holeState.commits :=
  claim_C2 true 2 0 defaultIter [] holeState ⟨some 10, ⟨0, 0, 1⟩⟩ holeFrame
    [⟨some 30, ⟨0, 0, 3⟩⟩] rfl rfl rfl (by decide)

end DrmEgl
